import Mathlib

/-!
Shallow embedding of the PitchForgeAI pitch-deck generator
(src/generate_ppt.py, src/backend/generate_ppt.py, src/ai_generator.py,
src/backend/ai_generator.py).

Modelling conventions:
* Python `os.environ` is an abstract map `String → Option String`.
* Python floats are modelled as rationals `ℚ` (the claims under study are
  about which values are written, scaled, or defaulted, not about IEEE
  rounding).
* Python dicts that the code consumes by key lookup are association lists
  `List (String × α)` with `List.lookup`; dicts the code only iterates are
  association lists in insertion order.
* Exceptions are `Except String` / `Option` (`none` models an uncaught
  exception such as `KeyError` or `IndexError`).
* Network side effects are reified as an `Effect` trace; the responses of
  the remote services (presentation structure, spreadsheet metadata, LLM
  reply text, parse results of `json.loads` / `float`) are parameters.
* Literal brace and apostrophe characters inside Lean strings are
  written with the escapes \x7b, \x7d and \x27.
-/

/-- Embeds `get_env_variable` (src/generate_ppt.py lines 30-47 and
src/backend/generate_ppt.py lines 32-49; both variants are textually
identical): `os.getenv(key, default)`, raising `ValueError` when the
result is `None`. -/
def get_env_variable (env : String → Option String) (key : String)
    (default : Option String) : Except String String :=
  match env key with
  | some v => Except.ok v
  | none =>
    match default with
    | some d => Except.ok d
    | none => Except.error ("Missing required environment variable: " ++ key)

/-- The keys of `PITCH_DECK_SCHEMA` (src/ai_generator.py lines 9-49;
src/backend/ai_generator.py has the same 39 keys in the same order), in
source order.  The schema values are prompt-side descriptions that no
claim depends on, so only the keys are embedded. -/
def PITCH_DECK_SCHEMA_keys : List String :=
  ["COMPANY_NAME", "TAGLINE", "SUBTITLE",
   "PROBLEM_1", "PROBLEM_2", "PROBLEM_3", "PROBLEM_4",
   "INSIGHT_1", "INSIGHT_2", "INSIGHT_3",
   "SOLUTION_1", "SOLUTION_2", "SOLUTION_3", "SOLUTION_4",
   "FLOW_1", "FLOW_2", "FLOW_3", "FLOW_4",
   "TAM_VALUE", "SAM_VALUE", "SOM_VALUE",
   "WHY_NOW_1", "WHY_NOW_2", "WHY_NOW_3", "WHY_NOW_4",
   "BUSINESS_MODEL_1", "BUSINESS_MODEL_2", "BUSINESS_MODEL_3",
   "GTM_1", "GTM_2", "GTM_3", "GTM_4",
   "COMPETITION_1", "COMPETITION_2", "COMPETITION_3",
   "RISK_1", "RISK_2", "RISK_3",
   "VISION_STATEMENT"]

/-- The environment-variable names read by `load_placeholders`
(src/generate_ppt.py lines 93-151), in the order the literal dict
evaluates them. -/
def placeholderEnvKeys : List String :=
  ["COMPANY_NAME", "TAGLINE", "SUBTITLE",
   "PROBLEM_1", "PROBLEM_2", "PROBLEM_3", "PROBLEM_4",
   "INSIGHT_1", "INSIGHT_2", "INSIGHT_3",
   "SOLUTION_1", "SOLUTION_2", "SOLUTION_3", "SOLUTION_4",
   "FLOW_1", "FLOW_2", "FLOW_3", "FLOW_4",
   "TAM_VALUE", "SAM_VALUE", "SOM_VALUE",
   "WHY_NOW_1", "WHY_NOW_2", "WHY_NOW_3", "WHY_NOW_4",
   "BUSINESS_MODEL_1", "BUSINESS_MODEL_2", "BUSINESS_MODEL_3",
   "GTM_1", "GTM_2", "GTM_3", "GTM_4",
   "COMPETITION_1", "COMPETITION_2", "COMPETITION_3",
   "RISK_1", "RISK_2", "RISK_3",
   "VISION_STATEMENT"]

/-- A field name `K` wrapped in double braces, i.e. the five-brace
f-string of `prepare_placeholders` (src/backend/generate_ppt.py line 128)
and the literal dict keys of `load_placeholders` (src/generate_ppt.py
lines 101-150), which all have the uniform shape of the env key wrapped
in double braces. -/
def wrapToken (k : String) : String := "\x7b\x7b" ++ k ++ "\x7d\x7d"

/-- Helper for `load_placeholders`: evaluates one `get_env_variable` per
key, left to right, the first failure raising.  This folds the literal
39-entry dict of src/generate_ppt.py lines 100-151, every entry of which
has the uniform shape: key = the env-variable name wrapped in double
braces, value = `get_env_variable` of that name with no default. -/
def loadTokens (env : String → Option String) :
    List String → Except String (List (String × String))
  | [] => Except.ok []
  | k :: ks =>
    match get_env_variable env k none with
    | Except.error e => Except.error e
    | Except.ok v =>
      match loadTokens env ks with
      | Except.error e => Except.error e
      | Except.ok rest => Except.ok ((wrapToken k, v) :: rest)

/-- Embeds `load_placeholders` (src/generate_ppt.py lines 93-151). -/
def load_placeholders (env : String → Option String) :
    Except String (List (String × String)) :=
  loadTokens env placeholderEnvKeys

/-- Embeds `prepare_placeholders` (src/backend/generate_ppt.py lines
118-128): a dict comprehension mapping each key K of the generated
content to the token of K wrapped in double braces. -/
def prepare_placeholders (generated_data : List (String × String)) :
    List (String × String) :=
  generated_data.map (fun kv => (wrapToken kv.1, kv.2))

/-- Python `float(s)` (used by `load_market_data`): the conversion is a
library call, abstracted as a parameter `parse`; `none` raises
`ValueError`. -/
def toFloat (parse : String → Option ℚ) (s : String) : Except String ℚ :=
  match parse s with
  | some q => Except.ok q
  | none => Except.error ("could not convert string to float: " ++ s)

/-- Embeds `load_market_data` (src/generate_ppt.py lines 154-165): a
literal dict whose three values are `float(get_env_variable(...))`,
evaluated in order TAM, SAM, SOM. -/
def load_market_data (env : String → Option String)
    (parse : String → Option ℚ) : Except String (List (String × ℚ)) :=
  match get_env_variable env "TAM_NUMERIC" none with
  | Except.error e => Except.error e
  | Except.ok ts =>
    match toFloat parse ts with
    | Except.error e => Except.error e
    | Except.ok t =>
      match get_env_variable env "SAM_NUMERIC" none with
      | Except.error e => Except.error e
      | Except.ok ss =>
        match toFloat parse ss with
        | Except.error e => Except.error e
        | Except.ok s =>
          match get_env_variable env "SOM_NUMERIC" none with
          | Except.error e => Except.error e
          | Except.ok os =>
            match toFloat parse os with
            | Except.error e => Except.error e
            | Except.ok o =>
              Except.ok [("TAM", t), ("SAM", s), ("SOM", o)]

/-- The code-fence cleanup both generator functions apply to the raw LLM
reply (src/ai_generator.py lines 134 and 187, src/backend/ai_generator.py
lines 134 and 191):
`text.replace("```json", "").replace("```", "").strip()`. -/
def cleanLLMText (text : String) : String :=
  ((text.replace "```json" "").replace "```" "").trim

/-- Embeds `generate_pitch_metadata` (src/ai_generator.py lines 95-138;
src/backend/ai_generator.py lines 95-138 is textually identical).
`apiKey` is `os.getenv("GEMINI_API_KEY")`; `callResult` is the reply text
of `client.models.generate_content` (`none` models the call raising);
`parseJson` abstracts `json.loads` (`none` models it raising).  A raised
`ValueError` for the missing key is `Except.error`; the `try/except`
around call+parse turns any exception there into the returned empty
dict. -/
def generate_pitch_metadata (apiKey : Option String)
    (callResult : Option String)
    (parseJson : String → Option (List (String × String))) :
    Except String (List (String × String)) :=
  match apiKey with
  | none => Except.error "GEMINI_API_KEY not found in environment variables"
  | some _ =>
    match callResult with
    | none => Except.ok []
    | some text =>
      match parseJson (cleanLLMText text) with
      | none => Except.ok []
      | some parsed => Except.ok parsed

/-- Embeds `generate_market_data` of the root variant
(src/ai_generator.py lines 141-191): missing API key, a raising call, or
a failed `json.loads` all yield the hardcoded fallback dict
TAM 10, SAM 5, SOM 1. -/
def generate_market_data_root (apiKey : Option String)
    (callResult : Option String)
    (parseJson : String → Option (List (String × ℚ))) : List (String × ℚ) :=
  match apiKey with
  | none => [("TAM", 10), ("SAM", 5), ("SOM", 1)]
  | some _ =>
    match callResult with
    | none => [("TAM", 10), ("SAM", 5), ("SOM", 1)]
    | some text =>
      match parseJson (cleanLLMText text) with
      | none => [("TAM", 10), ("SAM", 5), ("SOM", 1)]
      | some parsed => parsed

/-- Embeds `generate_market_data` of the backend variant
(src/backend/ai_generator.py lines 141-195): same control flow as the
root variant with fallback TAM 150, SAM 25, SOM 0.5. -/
def generate_market_data_backend (apiKey : Option String)
    (callResult : Option String)
    (parseJson : String → Option (List (String × ℚ))) : List (String × ℚ) :=
  match apiKey with
  | none => [("TAM", 150), ("SAM", 25), ("SOM", (0.5 : ℚ))]
  | some _ =>
    match callResult with
    | none => [("TAM", 150), ("SAM", 25), ("SOM", (0.5 : ℚ))]
    | some text =>
      match parseJson (cleanLLMText text) with
      | none => [("TAM", 150), ("SAM", 25), ("SOM", (0.5 : ℚ))]
      | some parsed => parsed

/-- One cell of a Sheets `values` block: the code writes both strings and
numbers (src/generate_ppt.py lines 270-275). -/
inductive Cell where
  | str (s : String)
  | num (q : ℚ)
deriving DecidableEq, Repr

/-- A page element of a slide as `update_market_chart` consumes it: its
object id, and the spreadsheet id of its `sheetsChart` when the element
has one (src/generate_ppt.py lines 239-243). -/
structure PageElement where
  objectId : String
  sheetsChart : Option String
deriving DecidableEq, Repr

/-- A slide: its page elements. -/
structure Slide where
  pageElements : List PageElement
deriving DecidableEq, Repr

/-- The presentation structure returned by `presentations().get`. -/
structure Presentation where
  slides : List Slide
deriving DecidableEq, Repr

/-- The properties of one sheet in the spreadsheet metadata: its title
(src/generate_ppt.py lines 257-258). -/
structure SheetProps where
  title : String
deriving DecidableEq, Repr

/-- The spreadsheet metadata returned by `spreadsheets().get`. -/
structure SpreadsheetMeta where
  sheets : List SheetProps
deriving DecidableEq, Repr

/-- The chart-scan loop of `update_market_chart` (src/generate_ppt.py
lines 235-243 and src/backend/generate_ppt.py lines 198-206, identical):
accumulates `chart_object_ids` (a list, in encounter order) and
`linked_sheet_ids`.  The Python set of sheet ids is modelled as a
duplicate-free list in first-insertion order; no claim depends on the
iteration order CPython gives `list(set)`. -/
def collectCharts (p : Presentation) : List String × List String :=
  p.slides.foldl (fun acc slide =>
    slide.pageElements.foldl (fun acc el =>
      match el.sheetsChart with
      | none => acc
      | some sid =>
        (acc.1 ++ [el.objectId],
         if acc.2.contains sid then acc.2 else acc.2 ++ [sid])) acc)
    ([], [])

/-- Python `title.startswith(marker)`, modelled on the character lists
of the two strings (the byte-indexed String.startsWith of Lean is stuck
under kernel reduction, so the evaluable character-level equivalent is
used). -/
def startswith (s marker : String) : Bool :=
  marker.data.isPrefixOf s.data

/-- The tab-scan loop of `update_market_chart` (src/generate_ppt.py lines
256-261): the first sheet whose title starts with the marker "[Chart",
else `none`. -/
def findChartTab : List SheetProps → Option String
  | [] => none
  | sh :: rest =>
    if startswith sh.title "[Chart" then some sh.title else findChartTab rest

/-- Tab selection including the fallback (src/generate_ppt.py lines
256-265): the marker scan, then the title of the first sheet; `none` models
the `IndexError` of `sheet_meta["sheets"][0]` on an empty listing. -/
def chooseChartTab (meta : SpreadsheetMeta) : Option String :=
  match findChartTab meta.sheets with
  | some t => some t
  | none => meta.sheets.head?.map SheetProps.title

/-- One `replaceAllText` request as built by `replace_text_placeholders`
(src/generate_ppt.py lines 204-209). -/
structure ReplaceRequest where
  containsText : String
  matchCase : Bool
  replaceText : String
deriving DecidableEq, Repr

/-- The request-building loop of `replace_text_placeholders`
(src/generate_ppt.py lines 202-209 and src/backend/generate_ppt.py lines
165-172, identical): starts from the empty list and appends one request
per placeholder entry, with `matchCase` set to `True`. -/
def buildReplaceRequests (placeholders : List (String × String)) :
    List ReplaceRequest :=
  placeholders.foldl
    (fun reqs kv =>
      reqs ++ [{ containsText := kv.1, matchCase := true, replaceText := kv.2 }])
    []

/-- A remote call issued by the pipeline, reified for trace reasoning. -/
inductive Effect where
  | getPresentation (pid : String)
  | warnNoChart
  | getSpreadsheet (sid : String)
  | valuesUpdate (sid : String) (rng : String) (vals : List (List Cell))
  | refreshCharts (pid : String) (chartIds : List String)
  | sleepSeconds (n : ℕ)
  | authenticate
  | llmCall (which : String)
  | driveCopy (templateId : String) (outputName : String)
  | slidesBatchReplace (pid : String) (reqs : List ReplaceRequest)
  | exportFile (pid : String) (path : String)
deriving DecidableEq, Repr

/-- Embeds `replace_text_placeholders` (src/generate_ppt.py lines
192-215; src/backend/generate_ppt.py lines 155-178 is identical): builds
the request list and submits it in one `batchUpdate` call. -/
def replace_text_placeholders (pid : String)
    (placeholders : List (String × String)) : List Effect :=
  [Effect.slidesBatchReplace pid (buildReplaceRequests placeholders)]

/-- The A1 range string of src/generate_ppt.py line 279: the chosen tab
name wrapped in single quotes, followed by !A1:B4. -/
def a1Range (tab : String) : String := "\x27" ++ tab ++ "\x27!A1:B4"

/-- The `sheet_values` block of the root `update_market_chart`
(src/generate_ppt.py lines 270-275): direct indexing
`market_data["TAM"]` etc., so a missing key raises `KeyError`
(`none`). -/
def rootSheetValues (market_data : List (String × ℚ)) :
    Option (List (List Cell)) :=
  match market_data.lookup "TAM" with
  | none => none
  | some t =>
    match market_data.lookup "SAM" with
    | none => none
    | some s =>
      match market_data.lookup "SOM" with
      | none => none
      | some o =>
        some [[Cell.str "Metric", Cell.str "Value"],
              [Cell.str "TAM", Cell.num t],
              [Cell.str "SAM", Cell.num s],
              [Cell.str "SOM", Cell.num o]]

/-- The `sheet_values` block of the backend `update_market_chart`
(src/backend/generate_ppt.py lines 232-243): `market_data.get(k, d)`
with defaults TAM 150, SAM 25, SOM 0.5, each multiplied by 1000
(billions to millions). -/
def backendSheetValues (market_data : List (String × ℚ)) :
    List (List Cell) :=
  let tam_millions := ((market_data.lookup "TAM").getD 150) * 1000
  let sam_millions := ((market_data.lookup "SAM").getD 25) * 1000
  let som_millions := ((market_data.lookup "SOM").getD (0.5 : ℚ)) * 1000
  [[Cell.str "Metric", Cell.str "Value"],
   [Cell.str "TAM", Cell.num tam_millions],
   [Cell.str "SAM", Cell.num sam_millions],
   [Cell.str "SOM", Cell.num som_millions]]

/-- Embeds the root `update_market_chart` (src/generate_ppt.py lines
218-299).  `metas` gives the metadata reply of `spreadsheets().get` for
each spreadsheet id.  Returns the effect trace, or `none` when the body
raises (`KeyError` on the market-data dict, `IndexError` on an empty
sheet listing). -/
def update_market_chart_root (pres : Presentation)
    (metas : String → SpreadsheetMeta) (pid : String)
    (market_data : List (String × ℚ)) : Option (List Effect) :=
  let charts := collectCharts pres
  match charts.2 with
  | [] => some [Effect.getPresentation pid, Effect.warnNoChart]
  | sid :: _ =>
    match chooseChartTab (metas sid) with
    | none => none
    | some tab =>
      match rootSheetValues market_data with
      | none => none
      | some vals =>
        let base := [Effect.getPresentation pid, Effect.getSpreadsheet sid,
                     Effect.valuesUpdate sid (a1Range tab) vals]
        if charts.1.isEmpty then some base
        else some (base ++ [Effect.refreshCharts pid charts.1,
                            Effect.sleepSeconds 2])

/-- Embeds the backend `update_market_chart`
(src/backend/generate_ppt.py lines 181-267): identical control flow to
the root variant, with the defaulting/scaling `sheet_values` block. -/
def update_market_chart_backend (pres : Presentation)
    (metas : String → SpreadsheetMeta) (pid : String)
    (market_data : List (String × ℚ)) : Option (List Effect) :=
  let charts := collectCharts pres
  match charts.2 with
  | [] => some [Effect.getPresentation pid, Effect.warnNoChart]
  | sid :: _ =>
    match chooseChartTab (metas sid) with
    | none => none
    | some tab =>
      let vals := backendSheetValues market_data
      let base := [Effect.getPresentation pid, Effect.getSpreadsheet sid,
                   Effect.valuesUpdate sid (a1Range tab) vals]
      if charts.1.isEmpty then some base
      else some (base ++ [Effect.refreshCharts pid charts.1,
                          Effect.sleepSeconds 2])

/-- Specification-side abbreviation: the 4-row/2-column market block
with header row and TAM/SAM/SOM metric rows. -/
def marketBlock (t s o : ℚ) : List (List Cell) :=
  [[Cell.str "Metric", Cell.str "Value"],
   [Cell.str "TAM", Cell.num t],
   [Cell.str "SAM", Cell.num s],
   [Cell.str "SOM", Cell.num o]]

/-- Whether an effect is a remote document/spreadsheet mutation (template
copy, text substitution, chart-data write, chart refresh, or export). -/
def isRemoteMutation : Effect → Bool
  | Effect.driveCopy _ _ => true
  | Effect.slidesBatchReplace _ _ => true
  | Effect.valuesUpdate _ _ _ => true
  | Effect.refreshCharts _ _ => true
  | Effect.exportFile _ _ => true
  | _ => false

/-- The environment variables the root `main` (src/generate_ppt.py lines
323-360) reads through `get_env_variable` with no default:
TEMPLATE_PRESENTATION_ID (line 331), the 39 placeholder variables
(lines 100-150), and the three numeric market variables
(lines 162-164). -/
def requiredRootKeys : List String :=
  ["TEMPLATE_PRESENTATION_ID"] ++ placeholderEnvKeys ++
    ["TAM_NUMERIC", "SAM_NUMERIC", "SOM_NUMERIC"]

/-- The environment variables the backend `generate_pitch_deck`
(src/backend/generate_ppt.py lines 291-333) reads through
`get_env_variable` with no default: TEMPLATE_PRESENTATION_ID
(line 312) only. -/
def requiredBackendKeys : List String := ["TEMPLATE_PRESENTATION_ID"]

/-- Embeds the root orchestrator `main` (src/generate_ppt.py lines
323-360) as a trace computation.  Step order as in the source: config
reads, authenticate, `load_placeholders`, `load_market_data`, template
copy, text substitution, chart update, export.  Parameters stand for
external-service responses: `parse` for `float`, `pres`/`metas` for the
Slides/Sheets replies on the copied presentation `copiedId`.  Returns
the effects issued plus `some errorMessage` when the run raises. -/
def generate_ppt_main (env : String → Option String)
    (parse : String → Option ℚ) (pres : Presentation)
    (metas : String → SpreadsheetMeta) (copiedId : String) :
    List Effect × Option String :=
  match get_env_variable env "TEMPLATE_PRESENTATION_ID" none with
  | Except.error e => ([], some e)
  | Except.ok templateId =>
    match get_env_variable env "OUTPUT_PRESENTATION_NAME"
        (some "Generated Pitch Deck") with
    | Except.error e => ([], some e)
    | Except.ok outputName =>
      match get_env_variable env "OUTPUT_FILE_NAME"
          (some "output_pitch_deck.pptx") with
      | Except.error e => ([], some e)
      | Except.ok outputFile =>
        match load_placeholders env with
        | Except.error e => ([Effect.authenticate], some e)
        | Except.ok placeholders =>
          match load_market_data env parse with
          | Except.error e => ([Effect.authenticate], some e)
          | Except.ok market_data =>
            let base := [Effect.authenticate,
                         Effect.driveCopy templateId outputName] ++
              replace_text_placeholders copiedId placeholders
            match update_market_chart_root pres metas copiedId market_data with
            | none => (base, some "update_market_chart raised")
            | some chartTrace =>
              (base ++ chartTrace ++ [Effect.exportFile copiedId outputFile],
               none)

/-- Embeds the backend orchestrator `generate_pitch_deck`
(src/backend/generate_ppt.py lines 291-333) as a trace computation.
Step order as in the source: `generate_pitch_metadata`,
`generate_market_data`, config read, authenticate,
`prepare_placeholders`, template copy, text substitution, chart update,
export.  `metaCall`/`marketCall` are the two LLM reply texts (`none`
models the call raising), `parseGC`/`parseMD` abstract `json.loads`,
`now` is `int(time.time())`. -/
def generate_pitch_deck_run (env : String → Option String)
    (metaCall marketCall : Option String)
    (parseGC : String → Option (List (String × String)))
    (parseMD : String → Option (List (String × ℚ)))
    (pres : Presentation) (metas : String → SpreadsheetMeta)
    (copiedId : String) (now : ℕ) : List Effect × Option String :=
  match generate_pitch_metadata (env "GEMINI_API_KEY") metaCall parseGC with
  | Except.error e => ([], some e)
  | Except.ok generated_content =>
    let market_data :=
      generate_market_data_backend (env "GEMINI_API_KEY") marketCall parseMD
    match get_env_variable env "TEMPLATE_PRESENTATION_ID" none with
    | Except.error e =>
      ([Effect.llmCall "metadata", Effect.llmCall "market"], some e)
    | Except.ok templateId =>
      let outputName := "Pitch Deck - " ++
        ((generated_content.lookup "COMPANY_NAME").getD "Startup")
      let outputFile := "pitch_deck_" ++ toString now ++ ".pptx"
      let placeholders := prepare_placeholders generated_content
      let base := [Effect.llmCall "metadata", Effect.llmCall "market",
                   Effect.authenticate,
                   Effect.driveCopy templateId outputName] ++
        replace_text_placeholders copiedId placeholders
      match update_market_chart_backend pres metas copiedId market_data with
      | none => (base, some "update_market_chart raised")
      | some chartTrace =>
        (base ++ chartTrace ++ [Effect.exportFile copiedId outputFile], none)

/-! ## Concrete fixtures used by witnesses -/

/-- A presentation with one slide holding one linked Sheets chart
(object id "el1", spreadsheet "sheet9") and one plain element. -/
def presW : Presentation := ⟨[⟨[⟨"el1", some "sheet9"⟩, ⟨"el2", none⟩]⟩]⟩

/-- A presentation whose elements contain no linked Sheets chart. -/
def presNoChart : Presentation := ⟨[⟨[⟨"el2", none⟩]⟩, ⟨[]⟩]⟩

/-- Spreadsheet metadata with a data tab and a marker tab. -/
def metasW : String → SpreadsheetMeta := fun _ => ⟨[⟨"Data"⟩, ⟨"[Chart] Market"⟩]⟩

/-- A fully populated market-data dict. -/
def mdW : List (String × ℚ) := [("TAM", 1), ("SAM", 2), ("SOM", 3)]

/-- The trace the root `update_market_chart` produces on `presW`,
`metasW`, `mdW`. -/
def traceW : List Effect :=
  [Effect.getPresentation "p", Effect.getSpreadsheet "sheet9",
   Effect.valuesUpdate "sheet9" (a1Range "[Chart] Market") (marketBlock 1 2 3),
   Effect.refreshCharts "p" ["el1"], Effect.sleepSeconds 2]

/-! ## Helper lemmas -/

/-- A successful required read (no default) means the variable is set to
the returned value. -/
theorem get_env_variable_ok_none (env : String → Option String)
    (key v : String) (h : get_env_variable env key none = Except.ok v) :
    env key = some v := by
  unfold get_env_variable at h
  cases henv : env key with
  | some w => rw [henv] at h; cases h; rfl
  | none => rw [henv] at h; cases h

/-- A read with a default never raises. -/
theorem get_env_variable_some_default (env : String → Option String)
    (key d : String) :
    ∃ v, get_env_variable env key (some d) = Except.ok v := by
  unfold get_env_variable
  cases env key with
  | some w => exact ⟨w, rfl⟩
  | none => exact ⟨d, rfl⟩

/-- A successful `loadTokens` run returns one wrapped token per key, in
order, and witnesses that every key was present in the environment. -/
theorem loadTokens_ok (env : String → Option String) :
    ∀ (ks : List String) (m : List (String × String)),
      loadTokens env ks = Except.ok m →
      m.map Prod.fst = ks.map wrapToken ∧ ∀ k ∈ ks, (env k).isSome := by
  intro ks
  induction ks with
  | nil =>
    intro m h
    cases h
    exact ⟨rfl, by simp⟩
  | cons k rest ih =>
    intro m h
    unfold loadTokens at h
    cases hg : get_env_variable env k none with
    | error e => rw [hg] at h; cases h
    | ok v =>
      rw [hg] at h
      cases hr : loadTokens env rest with
      | error e => rw [hr] at h; cases h
      | ok tail =>
        rw [hr] at h
        cases h
        obtain ⟨htail, hpresent⟩ := ih tail hr
        refine ⟨by simpa using htail, ?_⟩
        intro k' hk'
        rcases List.mem_cons.mp hk' with hk' | hk'
        · subst hk'
          rw [get_env_variable_ok_none env k' v hg]
          rfl
        · exact hpresent k' hk'

/-- A successful `load_market_data` run witnesses that the three numeric
environment variables were present. -/
theorem load_market_data_ok (env : String → Option String)
    (parse : String → Option ℚ) (md : List (String × ℚ))
    (h : load_market_data env parse = Except.ok md) :
    (env "TAM_NUMERIC").isSome ∧ (env "SAM_NUMERIC").isSome ∧
      (env "SOM_NUMERIC").isSome := by
  unfold load_market_data at h
  cases h1 : get_env_variable env "TAM_NUMERIC" none with
  | error e => rw [h1] at h; cases h
  | ok ts =>
    rw [h1] at h; dsimp only at h
    cases h2 : toFloat parse ts with
    | error e => rw [h2] at h; cases h
    | ok t =>
      rw [h2] at h; dsimp only at h
      cases h3 : get_env_variable env "SAM_NUMERIC" none with
      | error e => rw [h3] at h; cases h
      | ok ss =>
        rw [h3] at h; dsimp only at h
        cases h4 : toFloat parse ss with
        | error e => rw [h4] at h; cases h
        | ok s =>
          rw [h4] at h; dsimp only at h
          cases h5 : get_env_variable env "SOM_NUMERIC" none with
          | error e => rw [h5] at h; cases h
          | ok os =>
            rw [h5] at h
            refine ⟨?_, ?_, ?_⟩
            · rw [get_env_variable_ok_none env _ _ h1]; rfl
            · rw [get_env_variable_ok_none env _ _ h3]; rfl
            · rw [get_env_variable_ok_none env _ _ h5]; rfl

/-- The request-building fold is the map over the placeholder entries. -/
theorem buildReplaceRequests_eq_map (placeholders : List (String × String)) :
    buildReplaceRequests placeholders =
      placeholders.map (fun kv => ⟨kv.1, true, kv.2⟩) := by
  have aux : ∀ (ph : List (String × String)) (acc : List ReplaceRequest),
      ph.foldl (fun reqs kv => reqs ++ [⟨kv.1, true, kv.2⟩]) acc =
        acc ++ ph.map (fun kv => ⟨kv.1, true, kv.2⟩) := by
    intro ph
    induction ph with
    | nil => intro acc; simp
    | cons kv rest ih => intro acc; simp [ih]
  simpa using aux placeholders []

/-! ## Claim theorems -/

/-- C1: for every valid request the placeholder map contains exactly the
schema field names wrapped in double braces and nothing else:
`load_placeholders` returns exactly the 39 fixed schema tokens (the keys
of `PITCH_DECK_SCHEMA`, in order, each wrapped in double braces), and
`prepare_placeholders` applied to any GeneratedContent mapping yields
exactly one wrapped-token entry per key of that mapping and nothing
else. -/
theorem placeholder_map_exact (env : String → Option String)
    (m : List (String × String)) (h : load_placeholders env = Except.ok m) :
    m.map Prod.fst = PITCH_DECK_SCHEMA_keys.map wrapToken ∧
    m.length = 39 ∧ PITCH_DECK_SCHEMA_keys.length = 39 ∧
    ∀ gc : List (String × String),
      (prepare_placeholders gc).map Prod.fst =
        gc.map (fun kv => wrapToken kv.1) ∧
      (prepare_placeholders gc).length = gc.length := by
  have hkeys : placeholderEnvKeys = PITCH_DECK_SCHEMA_keys := rfl
  obtain ⟨hmap, _⟩ := loadTokens_ok env placeholderEnvKeys m h
  refine ⟨by rw [hmap, hkeys], ?_, by decide, ?_⟩
  · have := congrArg List.length hmap
    simpa using this
  · intro gc
    constructor
    · simp [prepare_placeholders]
    · simp [prepare_placeholders]

/-- C1 witness: a fully populated environment, evaluated concretely. -/
theorem placeholder_map_exact_witness :
    load_placeholders (fun k => some k) = Except.ok
      (placeholderEnvKeys.map (fun k => (wrapToken k, k))) ∧
    ((placeholderEnvKeys.map (fun k => (wrapToken k, k))).map Prod.fst =
        PITCH_DECK_SCHEMA_keys.map wrapToken ∧
      (placeholderEnvKeys.map (fun k => (wrapToken k, k))).length = 39 ∧
      PITCH_DECK_SCHEMA_keys.length = 39 ∧
      ∀ gc : List (String × String),
        (prepare_placeholders gc).map Prod.fst =
          gc.map (fun kv => wrapToken kv.1) ∧
        (prepare_placeholders gc).length = gc.length) :=
  ⟨rfl, placeholder_map_exact (fun k => some k) _ rfl⟩

/-- C9: `replace_text_placeholders` builds exactly one
case-sensitive-match find-and-replace request per placeholder entry and
submits them all in one single batch-update call; the number of requests
equals the number of map entries. -/
theorem replace_requests_one_per_entry (pid : String)
    (placeholders : List (String × String)) :
    ∃ reqs, replace_text_placeholders pid placeholders =
        [Effect.slidesBatchReplace pid reqs] ∧
      reqs.length = placeholders.length ∧
      (∀ r ∈ reqs, r.matchCase = true) ∧
      reqs = placeholders.map
        (fun kv => ⟨kv.1, true, kv.2⟩) := by
  refine ⟨buildReplaceRequests placeholders, rfl, ?_, ?_, ?_⟩
  · rw [buildReplaceRequests_eq_map]; simp
  · intro r hr
    rw [buildReplaceRequests_eq_map] at hr
    obtain ⟨kv, _, hkv⟩ := List.mem_map.mp hr
    rw [← hkv]
  · exact buildReplaceRequests_eq_map placeholders

/-- The tab scan returns `none` when no title carries the marker. -/
theorem findChartTab_none (sheets : List SheetProps)
    (h : ∀ sh ∈ sheets, startswith sh.title "[Chart" = false) :
    findChartTab sheets = none := by
  induction sheets with
  | nil => rfl
  | cons sh rest ih =>
    have hhead := h sh (List.mem_cons_self sh rest)
    have htail := ih (fun sh' hsh' => h sh' (List.mem_cons_of_mem sh hsh'))
    simp [findChartTab, hhead, htail]

/-- The tab scan returns the first title carrying the marker. -/
theorem findChartTab_first (sheets : List SheetProps) (i : ℕ)
    (hi : i < sheets.length)
    (hmark : startswith (sheets.get ⟨i, hi⟩).title "[Chart" = true)
    (hbefore : ∀ sh ∈ sheets.take i, startswith sh.title "[Chart" = false) :
    findChartTab sheets = some (sheets.get ⟨i, hi⟩).title := by
  induction sheets generalizing i with
  | nil => cases hi
  | cons sh rest ih =>
    cases i with
    | zero =>
      simp only [List.get] at hmark ⊢
      simp [findChartTab, hmark]
    | succ j =>
      have hhead : startswith sh.title "[Chart" = false := by
        apply hbefore
        simp [List.take_succ_cons]
      have htail := ih j (Nat.lt_of_succ_lt_succ hi) hmark
        (fun sh' hsh' => hbefore sh' (by simp [List.take_succ_cons, hsh']))
      simp only [List.get] at htail ⊢
      simp [findChartTab, hhead, htail]

/-- C8: the chart tab chosen by `update_market_chart` is the first sheet
in listing order whose title begins with the marker "[Chart"; when no
title begins with that marker, it is the first sheet of the listing. -/
theorem chart_tab_selection_policy (meta : SpreadsheetMeta) :
    (∀ (i : ℕ) (hi : i < meta.sheets.length),
      startswith (meta.sheets.get ⟨i, hi⟩).title "[Chart" = true →
      (∀ sh ∈ meta.sheets.take i, startswith sh.title "[Chart" = false) →
      chooseChartTab meta = some (meta.sheets.get ⟨i, hi⟩).title) ∧
    ((∀ sh ∈ meta.sheets, startswith sh.title "[Chart" = false) →
      chooseChartTab meta = meta.sheets.head?.map SheetProps.title) := by
  constructor
  · intro i hi hmark hbefore
    unfold chooseChartTab
    rw [findChartTab_first meta.sheets i hi hmark hbefore]
  · intro h
    unfold chooseChartTab
    rw [findChartTab_none meta.sheets h]

/-- C8 witness: a marker tab in second position is preferred over the
first sheet; with no marker the first sheet is chosen. -/
theorem chart_tab_selection_policy_witness :
    chooseChartTab ⟨[⟨"Data"⟩, ⟨"[Chart] Market"⟩]⟩ = some "[Chart] Market" ∧
    chooseChartTab ⟨[⟨"Data"⟩, ⟨"Notes"⟩]⟩ = some "Data" := by
  constructor
  · exact (chart_tab_selection_policy ⟨[⟨"Data"⟩, ⟨"[Chart] Market"⟩]⟩).1
      1 (by decide) (by decide) (by decide)
  · exact (chart_tab_selection_policy ⟨[⟨"Data"⟩, ⟨"Notes"⟩]⟩).2 (by decide)

/-- C2: on the same fully populated TAM/SAM/SOM triple the root variant
writes the three input values unchanged while the backend variant writes
each value multiplied by 1000, so the two chart-write computations
disagree whenever at least one value is nonzero. -/
theorem chart_units_divergence (t s o : ℚ)
    (h : ¬ (t = 0 ∧ s = 0 ∧ o = 0)) :
    rootSheetValues [("TAM", t), ("SAM", s), ("SOM", o)] =
      some (marketBlock t s o) ∧
    backendSheetValues [("TAM", t), ("SAM", s), ("SOM", o)] =
      marketBlock (t * 1000) (s * 1000) (o * 1000) ∧
    rootSheetValues [("TAM", t), ("SAM", s), ("SOM", o)] ≠
      some (backendSheetValues [("TAM", t), ("SAM", s), ("SOM", o)]) := by
  refine ⟨rfl, rfl, ?_⟩
  intro heq
  have h2 : (some (marketBlock t s o) : Option (List (List Cell))) =
      some (marketBlock (t * 1000) (s * 1000) (o * 1000)) := heq
  have h3 := Option.some.inj h2
  simp only [marketBlock, List.cons.injEq, Cell.num.injEq, and_true,
    true_and] at h3
  apply h
  obtain ⟨ht, hs, ho⟩ := h3
  exact ⟨by linarith, by linarith, by linarith⟩

/-- C2 witness: the divergence at the concrete triple (1, 2, 3). -/
theorem chart_units_divergence_witness :
    ¬ ((1 : ℚ) = 0 ∧ (2 : ℚ) = 0 ∧ (3 : ℚ) = 0) ∧
    rootSheetValues [("TAM", 1), ("SAM", 2), ("SOM", 3)] ≠
      some (backendSheetValues [("TAM", 1), ("SAM", 2), ("SOM", 3)]) :=
  ⟨by norm_num,
   (chart_units_divergence 1 2 3 (by norm_num)).2.2⟩

/-- C6: on missing credentials, a raising generation call, or an
unparseable reply, `generate_market_data` returns the hardcoded fallback
triple of its variant (root: TAM 10, SAM 5, SOM 1; backend: TAM 150,
SAM 25, SOM 0.5) instead of propagating the error — both embeddings are
total functions into market-data dicts, so no error escapes. -/
theorem market_data_hardcoded_fallback (apiKey callResult : Option String)
    (parseJson : String → Option (List (String × ℚ)))
    (h : apiKey = none ∨ callResult = none ∨
      ∃ text, callResult = some text ∧ parseJson (cleanLLMText text) = none) :
    generate_market_data_root apiKey callResult parseJson =
      [("TAM", 10), ("SAM", 5), ("SOM", 1)] ∧
    generate_market_data_backend apiKey callResult parseJson =
      [("TAM", 150), ("SAM", 25), ("SOM", (0.5 : ℚ))] := by
  rcases h with h | h | ⟨text, hc, hp⟩
  · subst h
    exact ⟨rfl, rfl⟩
  · subst h
    cases apiKey <;> exact ⟨rfl, rfl⟩
  · subst hc
    cases apiKey with
    | none => exact ⟨rfl, rfl⟩
    | some k =>
      constructor
      · simp [generate_market_data_root, hp]
      · simp [generate_market_data_backend, hp]

/-- C6 witness: missing credentials with an otherwise well-formed call. -/
theorem market_data_hardcoded_fallback_witness :
    generate_market_data_root none (some "reply") (fun _ => none) =
      [("TAM", 10), ("SAM", 5), ("SOM", 1)] ∧
    generate_market_data_backend none (some "reply") (fun _ => none) =
      [("TAM", 150), ("SAM", 25), ("SOM", (0.5 : ℚ))] :=
  market_data_hardcoded_fallback none (some "reply") (fun _ => none)
    (Or.inl rfl)

/-- C7: with credentials present, `generate_pitch_metadata` returns the
empty mapping whenever the generation call raises or the
code-fence-stripped reply fails JSON parsing, and otherwise returns the
parse result as is — no retry and no validation beyond the parse. -/
theorem metadata_empty_on_failure (k : String) (callResult : Option String)
    (parseJson : String → Option (List (String × String))) :
    ((callResult = none ∨ ∃ text, callResult = some text ∧
        parseJson (cleanLLMText text) = none) →
      generate_pitch_metadata (some k) callResult parseJson =
        Except.ok []) ∧
    (∀ text parsed, callResult = some text →
      parseJson (cleanLLMText text) = some parsed →
      generate_pitch_metadata (some k) callResult parseJson =
        Except.ok parsed) := by
  constructor
  · intro h
    rcases h with h | ⟨text, hc, hp⟩
    · subst h; rfl
    · subst hc
      simp [generate_pitch_metadata, hp]
  · intro text parsed hc hp
    subst hc
    simp [generate_pitch_metadata, hp]

/-- C7 witness: a raising call and an unparseable reply both yield the
empty mapping. -/
theorem metadata_empty_on_failure_witness :
    generate_pitch_metadata (some "key") none (fun _ => none) =
      Except.ok [] ∧
    generate_pitch_metadata (some "key") (some "not json")
      (fun _ => none) = Except.ok [] :=
  ⟨(metadata_empty_on_failure "key" none (fun _ => none)).1 (Or.inl rfl),
   (metadata_empty_on_failure "key" (some "not json") (fun _ => none)).1
     (Or.inr ⟨"not json", rfl, rfl⟩)⟩

/-- A successful root `sheet_values` computation is always a market
block. -/
theorem rootSheetValues_shape (md : List (String × ℚ))
    (v : List (List Cell)) (h : rootSheetValues md = some v) :
    ∃ t s o, v = marketBlock t s o := by
  unfold rootSheetValues at h
  cases h1 : md.lookup "TAM" with
  | none => rw [h1] at h; cases h
  | some t =>
    rw [h1] at h; dsimp only at h
    cases h2 : md.lookup "SAM" with
    | none => rw [h2] at h; cases h
    | some s =>
      rw [h2] at h; dsimp only at h
      cases h3 : md.lookup "SOM" with
      | none => rw [h3] at h; cases h
      | some o =>
        rw [h3] at h; dsimp only at h
        exact ⟨t, s, o, (Option.some.inj h).symm⟩

/-- The root `sheet_values` computation succeeds exactly when the three
keys are present. -/
theorem rootSheetValues_isSome_iff (md : List (String × ℚ)) :
    (rootSheetValues md).isSome = true ↔
      ((md.lookup "TAM").isSome = true ∧ (md.lookup "SAM").isSome = true ∧
        (md.lookup "SOM").isSome = true) := by
  unfold rootSheetValues
  cases md.lookup "TAM" <;> cases md.lookup "SAM" <;>
    cases md.lookup "SOM" <;> simp

/-- The backend `sheet_values` computation is the market block of the
looked-up values with the hardcoded defaults substituted, each scaled by
1000. -/
theorem backendSheetValues_eq (md : List (String × ℚ)) :
    backendSheetValues md =
      marketBlock (((md.lookup "TAM").getD 150) * 1000)
        (((md.lookup "SAM").getD 25) * 1000)
        (((md.lookup "SOM").getD (0.5 : ℚ)) * 1000) := rfl

/-- The four structural facts of a market block. -/
theorem marketBlock_facts (t s o : ℚ) :
    (marketBlock t s o).length = 4 ∧
    (∀ row ∈ marketBlock t s o, row.length = 2) ∧
    (marketBlock t s o).head? = some [Cell.str "Metric", Cell.str "Value"] := by
  refine ⟨rfl, ?_, rfl⟩
  intro row hrow
  simp only [marketBlock, List.mem_cons, List.not_mem_nil, or_false] at hrow
  rcases hrow with rfl | rfl | rfl | rfl <;> rfl

/-- Tab selection succeeds on any nonempty sheet listing. -/
theorem chooseChartTab_isSome (meta : SpreadsheetMeta)
    (h : meta.sheets ≠ []) : (chooseChartTab meta).isSome = true := by
  unfold chooseChartTab
  cases hf : findChartTab meta.sheets with
  | some t => rfl
  | none =>
    cases hs : meta.sheets with
    | nil => exact absurd hs h
    | cons sh rest => simp [hs]

/-- C3: whatever market data either variant of `update_market_chart`
receives, every spreadsheet value write it issues carries exactly 4 rows
of 2 columns — the header row ["Metric", "Value"] followed by the TAM,
SAM and SOM metric rows in that order — and targets range A1:B4 of the
chosen tab. -/
theorem chart_write_block_shape (pres : Presentation)
    (metas : String → SpreadsheetMeta) (pid : String)
    (md : List (String × ℚ)) (trace : List Effect)
    (h : update_market_chart_root pres metas pid md = some trace ∨
         update_market_chart_backend pres metas pid md = some trace) :
    ∀ sid rng vals, Effect.valuesUpdate sid rng vals ∈ trace →
      (∃ t s o, vals = marketBlock t s o) ∧
      vals.length = 4 ∧ (∀ row ∈ vals, row.length = 2) ∧
      vals.head? = some [Cell.str "Metric", Cell.str "Value"] ∧
      ∃ tab, chooseChartTab (metas sid) = some tab ∧ rng = a1Range tab := by
  intro sid rng vals hmem
  have main : ∃ t s o, vals = marketBlock t s o ∧
      ∃ tab, chooseChartTab (metas sid) = some tab ∧ rng = a1Range tab := by
    rcases h with h | h
    · rw [update_market_chart_root] at h
      cases hc2 : (collectCharts pres).2 with
      | nil =>
        rw [hc2] at h; dsimp only at h
        obtain rfl := Option.some.inj h
        simp at hmem
      | cons sid0 rest =>
        rw [hc2] at h; dsimp only at h
        cases htab : chooseChartTab (metas sid0) with
        | none => rw [htab] at h; cases h
        | some tab =>
          rw [htab] at h; dsimp only at h
          cases hvals : rootSheetValues md with
          | none => rw [hvals] at h; cases h
          | some vals0 =>
            rw [hvals] at h; dsimp only at h
            obtain ⟨t, s, o, rfl⟩ := rootSheetValues_shape md vals0 hvals
            split at h <;> obtain rfl := Option.some.inj h <;>
              simp only [List.mem_cons, List.mem_append,
                List.not_mem_nil, or_false, or_assoc] at hmem
            · rcases hmem with hmem | hmem | hmem
              · cases hmem
              · cases hmem
              · injection hmem with h1 h2 h3
                subst h1; subst h2; subst h3
                exact ⟨t, s, o, rfl, tab, htab, rfl⟩
            · rcases hmem with hmem | hmem | hmem | hmem | hmem
              · cases hmem
              · cases hmem
              · injection hmem with h1 h2 h3
                subst h1; subst h2; subst h3
                exact ⟨t, s, o, rfl, tab, htab, rfl⟩
              · cases hmem
              · cases hmem
    · rw [update_market_chart_backend] at h
      cases hc2 : (collectCharts pres).2 with
      | nil =>
        rw [hc2] at h; dsimp only at h
        obtain rfl := Option.some.inj h
        simp at hmem
      | cons sid0 rest =>
        rw [hc2] at h; dsimp only at h
        cases htab : chooseChartTab (metas sid0) with
        | none => rw [htab] at h; cases h
        | some tab =>
          rw [htab] at h; dsimp only at h
          split at h <;> obtain rfl := Option.some.inj h <;>
            simp only [List.mem_cons, List.mem_append,
              List.not_mem_nil, or_false, or_assoc] at hmem
          · rcases hmem with hmem | hmem | hmem
            · cases hmem
            · cases hmem
            · injection hmem with h1 h2 h3
              subst h1; subst h2; subst h3
              refine ⟨_, _, _, backendSheetValues_eq md, tab, htab, rfl⟩
          · rcases hmem with hmem | hmem | hmem | hmem | hmem
            · cases hmem
            · cases hmem
            · injection hmem with h1 h2 h3
              subst h1; subst h2; subst h3
              refine ⟨_, _, _, backendSheetValues_eq md, tab, htab, rfl⟩
            · cases hmem
            · cases hmem
  obtain ⟨t, s, o, rfl, tab, htab, rfl⟩ := main
  obtain ⟨h4, h2, hhead⟩ := marketBlock_facts t s o
  exact ⟨⟨t, s, o, rfl⟩, h4, h2, hhead, tab, htab, rfl⟩

/-- C3 witness: the root variant on a concrete presentation, metadata
and market triple, at the one value write of its trace. -/
theorem chart_write_block_shape_witness :
    (∃ t s o, marketBlock (1 : ℚ) 2 3 = marketBlock t s o) ∧
    (marketBlock (1 : ℚ) 2 3).length = 4 ∧
    (∀ row ∈ marketBlock (1 : ℚ) 2 3, row.length = 2) ∧
    (marketBlock (1 : ℚ) 2 3).head? =
      some [Cell.str "Metric", Cell.str "Value"] ∧
    ∃ tab, chooseChartTab (metasW "sheet9") = some tab ∧
      a1Range "[Chart] Market" = a1Range tab :=
  chart_write_block_shape presW metasW "p" mdW traceW (Or.inl (by decide))
    "sheet9" (a1Range "[Chart] Market") (marketBlock 1 2 3) (by decide)

/-- A chart scan over a presentation without linked Sheets charts leaves
the accumulator untouched. -/
theorem collectCharts_eq_nil (pres : Presentation)
    (h : ∀ slide ∈ pres.slides, ∀ el ∈ slide.pageElements,
      el.sheetsChart = none) :
    collectCharts pres = ([], []) := by
  have inner : ∀ (els : List PageElement) (acc : List String × List String),
      (∀ el ∈ els, el.sheetsChart = none) →
      els.foldl (fun acc el =>
        match el.sheetsChart with
        | none => acc
        | some sid =>
          (acc.1 ++ [el.objectId],
           if acc.2.contains sid then acc.2 else acc.2 ++ [sid])) acc = acc := by
    intro els
    induction els with
    | nil => intro acc _; rfl
    | cons el rest ih =>
      intro acc hels
      have hel := hels el (List.mem_cons_self el rest)
      simp only [List.foldl_cons, hel]
      exact ih acc (fun el' hel' => hels el' (List.mem_cons_of_mem el hel'))
  have outer : ∀ (slides : List Slide) (acc : List String × List String),
      (∀ slide ∈ slides, ∀ el ∈ slide.pageElements,
        el.sheetsChart = none) →
      slides.foldl (fun acc slide =>
        slide.pageElements.foldl (fun acc el =>
          match el.sheetsChart with
          | none => acc
          | some sid =>
            (acc.1 ++ [el.objectId],
             if acc.2.contains sid then acc.2 else acc.2 ++ [sid])) acc)
        acc = acc := by
    intro slides
    induction slides with
    | nil => intro acc _; rfl
    | cons slide rest ih =>
      intro acc hslides
      simp only [List.foldl_cons,
        inner slide.pageElements acc
          (hslides slide (List.mem_cons_self slide rest))]
      exact ih acc
        (fun slide' hs' => hslides slide' (List.mem_cons_of_mem slide hs'))
  exact outer pres.slides ([], []) h

/-- C4: on a presentation whose elements contain no linked Sheets chart,
both variants of `update_market_chart` return normally with a trace of
exactly the structure read plus the logged warning — no spreadsheet
metadata read, no value write and no chart refresh. -/
theorem no_chart_silent_skip (pres : Presentation)
    (metas : String → SpreadsheetMeta) (pid : String)
    (md_root md_backend : List (String × ℚ))
    (h : ∀ slide ∈ pres.slides, ∀ el ∈ slide.pageElements,
      el.sheetsChart = none) :
    update_market_chart_root pres metas pid md_root =
      some [Effect.getPresentation pid, Effect.warnNoChart] ∧
    update_market_chart_backend pres metas pid md_backend =
      some [Effect.getPresentation pid, Effect.warnNoChart] ∧
    ∀ e ∈ ([Effect.getPresentation pid, Effect.warnNoChart] : List Effect),
      isRemoteMutation e = false ∧ ∀ sid, e ≠ Effect.getSpreadsheet sid := by
  have hc := collectCharts_eq_nil pres h
  refine ⟨?_, ?_, ?_⟩
  · rw [update_market_chart_root, hc]
  · rw [update_market_chart_backend, hc]
  · intro e he
    simp only [List.mem_cons, List.not_mem_nil, or_false] at he
    rcases he with rfl | rfl
    · exact ⟨rfl, fun sid hne => by cases hne⟩
    · exact ⟨rfl, fun sid hne => by cases hne⟩

/-- C4 witness: a concrete chartless presentation. -/
theorem no_chart_silent_skip_witness :
    update_market_chart_root presNoChart metasW "p" mdW =
      some [Effect.getPresentation "p", Effect.warnNoChart] ∧
    update_market_chart_backend presNoChart metasW "p" [] =
      some [Effect.getPresentation "p", Effect.warnNoChart] ∧
    ∀ e ∈ ([Effect.getPresentation "p", Effect.warnNoChart] : List Effect),
      isRemoteMutation e = false ∧ ∀ sid, e ≠ Effect.getSpreadsheet sid :=
  no_chart_silent_skip presNoChart metasW "p" mdW [] (by decide)

/-- C10: on a presentation with a linked chart and a nonempty sheet
listing, the backend `update_market_chart` is total in the market-data
mapping — it never raises a key-lookup error, substituting the defaults
150, 25 and 0.5 (each then scaled by 1000) for absent TAM, SAM, SOM
keys — while the root variant indexes the three keys directly and
raises on any missing one. -/
theorem backend_chart_total_root_raises (pres : Presentation)
    (metas : String → SpreadsheetMeta) (pid : String)
    (md : List (String × ℚ)) (sid : String)
    (hsid : (collectCharts pres).2.head? = some sid)
    (hmeta : (metas sid).sheets ≠ []) :
    (update_market_chart_backend pres metas pid md).isSome = true ∧
    ((update_market_chart_root pres metas pid md).isSome = true ↔
      ((md.lookup "TAM").isSome = true ∧ (md.lookup "SAM").isSome = true ∧
        (md.lookup "SOM").isSome = true)) ∧
    (md.lookup "TAM" = none → md.lookup "SAM" = none →
      md.lookup "SOM" = none →
      backendSheetValues md =
        marketBlock (150 * 1000) (25 * 1000) ((0.5 : ℚ) * 1000)) := by
  cases hc2 : (collectCharts pres).2 with
  | nil => rw [hc2] at hsid; cases hsid
  | cons sid0 rest =>
    rw [hc2] at hsid
    have hs0 : sid0 = sid := Option.some.inj hsid
    rw [hs0] at hc2
    obtain ⟨tab, htab⟩ :=
      Option.isSome_iff_exists.mp (chooseChartTab_isSome (metas sid) hmeta)
    refine ⟨?_, ?_, ?_⟩
    · rw [update_market_chart_backend, hc2]
      dsimp only
      rw [htab]
      dsimp only
      split <;> rfl
    · rw [update_market_chart_root, hc2]
      dsimp only
      rw [htab]
      dsimp only
      rw [← rootSheetValues_isSome_iff md]
      cases hv : rootSheetValues md with
      | none => simp
      | some vals0 =>
        dsimp only
        constructor
        · intro _; rfl
        · intro _; split <;> rfl
    · intro h1 h2 h3
      rw [backendSheetValues_eq, h1, h2, h3]
      rfl

/-- C10 witness: the empty market-data mapping on a concrete linked
presentation — the backend succeeds with the scaled defaults, the root
variant raises. -/
theorem backend_chart_total_root_raises_witness :
    (update_market_chart_backend presW metasW "p"
      ([] : List (String × ℚ))).isSome = true ∧
    ((update_market_chart_root presW metasW "p"
        ([] : List (String × ℚ))).isSome = true ↔
      ((([] : List (String × ℚ)).lookup "TAM").isSome = true ∧
        (([] : List (String × ℚ)).lookup "SAM").isSome = true ∧
        (([] : List (String × ℚ)).lookup "SOM").isSome = true)) ∧
    (([] : List (String × ℚ)).lookup "TAM" = none →
      ([] : List (String × ℚ)).lookup "SAM" = none →
      ([] : List (String × ℚ)).lookup "SOM" = none →
      backendSheetValues ([] : List (String × ℚ)) =
        marketBlock (150 * 1000) (25 * 1000) ((0.5 : ℚ) * 1000)) :=
  backend_chart_total_root_raises presW metasW "p" [] "sheet9"
    (by decide) (by decide)

/-- C5: when a required configuration variable (one read with no
default) is missing, each orchestrator raises the `ValueError` of
`get_env_variable` before any remote document mutation (template copy,
text substitution, chart-data write, chart refresh, export) has been
issued. -/
theorem missing_config_fails_before_mutation
    (env : String → Option String) (parse : String → Option ℚ)
    (pres pres2 : Presentation) (metas metas2 : String → SpreadsheetMeta)
    (copiedId copiedId2 : String) (metaCall marketCall : Option String)
    (parseGC : String → Option (List (String × String)))
    (parseMD : String → Option (List (String × ℚ))) (now : ℕ) :
    ((∃ k ∈ requiredRootKeys, env k = none) →
      (generate_ppt_main env parse pres metas copiedId).2.isSome = true ∧
      ∀ e ∈ (generate_ppt_main env parse pres metas copiedId).1,
        isRemoteMutation e = false) ∧
    ((∃ k ∈ requiredBackendKeys, env k = none) →
      (generate_pitch_deck_run env metaCall marketCall parseGC parseMD
          pres2 metas2 copiedId2 now).2.isSome = true ∧
      ∀ e ∈ (generate_pitch_deck_run env metaCall marketCall parseGC parseMD
          pres2 metas2 copiedId2 now).1,
        isRemoteMutation e = false) := by
  constructor
  · rintro ⟨k, hk, hnone⟩
    rw [generate_ppt_main]
    cases h1 : get_env_variable env "TEMPLATE_PRESENTATION_ID" none with
    | error e => exact ⟨rfl, by intro e' he'; simp at he'⟩
    | ok tid =>
      dsimp only
      obtain ⟨v2, h2⟩ := get_env_variable_some_default env
        "OUTPUT_PRESENTATION_NAME" "Generated Pitch Deck"
      rw [h2]; dsimp only
      obtain ⟨v3, h3⟩ := get_env_variable_some_default env
        "OUTPUT_FILE_NAME" "output_pitch_deck.pptx"
      rw [h3]; dsimp only
      cases hlp : load_placeholders env with
      | error e =>
        refine ⟨rfl, ?_⟩
        intro e' he'
        simp only [List.mem_cons, List.not_mem_nil, or_false] at he'
        subst he'; rfl
      | ok placeholders =>
        dsimp only
        cases hmd : load_market_data env parse with
        | error e =>
          refine ⟨rfl, ?_⟩
          intro e' he'
          simp only [List.mem_cons, List.not_mem_nil, or_false] at he'
          subst he'; rfl
        | ok market_data =>
          exfalso
          have hper := (loadTokens_ok env placeholderEnvKeys
            placeholders hlp).2
          have hnum := load_market_data_ok env parse market_data hmd
          simp only [requiredRootKeys, List.mem_append, List.mem_cons,
            List.not_mem_nil, or_false, or_assoc] at hk
          rcases hk with rfl | hk | rfl | rfl | rfl
          · rw [get_env_variable_ok_none env _ _ h1] at hnone
            cases hnone
          · have := hper k hk
            rw [hnone] at this
            cases this
          · rw [hnone] at hnum
            simpa using hnum.1
          · rw [hnone] at hnum
            simpa using hnum.2.1
          · rw [hnone] at hnum
            simpa using hnum.2.2
  · rintro ⟨k, hk, hnone⟩
    have hk' : k = "TEMPLATE_PRESENTATION_ID" := by
      simpa [requiredBackendKeys] using hk
    subst hk'
    rw [generate_pitch_deck_run]
    cases hm : generate_pitch_metadata (env "GEMINI_API_KEY")
        metaCall parseGC with
    | error e => exact ⟨rfl, by intro e' he'; simp at he'⟩
    | ok gc =>
      dsimp only
      cases h1 : get_env_variable env "TEMPLATE_PRESENTATION_ID" none with
      | ok tid =>
        exfalso
        rw [get_env_variable_ok_none env _ _ h1] at hnone
        cases hnone
      | error e =>
        refine ⟨rfl, ?_⟩
        intro e' he'
        simp only [List.mem_cons, List.not_mem_nil, or_false] at he'
        rcases he' with rfl | rfl <;> rfl

/-- C5 witness: the everything-missing environment, on both
orchestrators. -/
theorem missing_config_fails_before_mutation_witness :
    "TEMPLATE_PRESENTATION_ID" ∈ requiredRootKeys ∧
    ((generate_ppt_main (fun _ => none) (fun _ => none) presW metasW
        "cid").2.isSome = true ∧
      ∀ e ∈ (generate_ppt_main (fun _ => none) (fun _ => none) presW metasW
        "cid").1, isRemoteMutation e = false) ∧
    ((generate_pitch_deck_run (fun _ => none) none none (fun _ => none)
        (fun _ => none) presW metasW "cid" 0).2.isSome = true ∧
      ∀ e ∈ (generate_pitch_deck_run (fun _ => none) none none
        (fun _ => none) (fun _ => none) presW metasW "cid" 0).1,
        isRemoteMutation e = false) :=
  ⟨by decide,
   (missing_config_fails_before_mutation (fun _ => none) (fun _ => none)
      presW presW metasW metasW "cid" "cid" none none (fun _ => none)
      (fun _ => none) 0).1
     ⟨"TEMPLATE_PRESENTATION_ID", by decide, rfl⟩,
   (missing_config_fails_before_mutation (fun _ => none) (fun _ => none)
      presW presW metasW metasW "cid" "cid" none none (fun _ => none)
      (fun _ => none) 0).2
     ⟨"TEMPLATE_PRESENTATION_ID", by decide, rfl⟩⟩
